import Mathlib

/-!
Shallow embedding of the `BoschPricingOptimizer` class of `AWS_DEPLOYMENT.py`
(the prescriptive pricing tool): `prepare_features`, `forecast_demand`,
`optimize_price` and `generate_recommendations`, together with theorems about
them.

Numbers are modelled as rationals (the Python code computes with floats, but
every constant involved is decimal and the algorithm is a finite chain of
field operations, so the rational semantics is the intended exact semantics).
The external XGBoost regressor `self.model.predict` is an opaque collaborator
and is a parameter `predict` of the embedding; it may fail, modelling a raised
exception.  The elasticity table `self.elasticities` is instance state set in
`__init__`; the embedding takes the table as a parameter and also defines the
concrete table that `__init__` installs.
-/

set_option maxRecDepth 10000

namespace PricingOptimizer

/-- Exceptions that can surface out of the embedded methods.
`keyError` models a Python `KeyError` on a missing dict key;
`estimatorFailure` models an exception raised inside the external
`model.predict`; `zeroDivisionError` models Python's builtin
`ZeroDivisionError`.  `invalidBaseline` is the dedicated domain error that the
specification posits for a zero baseline revenue; it is declared here so that
statements about it can be made, and no embedded operation ever produces it
(no such error class exists in the source). -/
inductive PyErr where
  | keyError (key : String)
  | estimatorFailure
  | zeroDivisionError
  | invalidBaseline
  deriving DecidableEq

/-- A product's data dict.  The Python object is a single heterogeneous dict;
the numeric-valued keys (the only ones `prepare_features` reads — the feature
list contains only numeric features) are modelled by `entries`, and the two
string-valued keys `'Product_Category'` and `'Store_Location'` read by
`generate_recommendations` are modelled by the two optional string fields
(`none` models an absent key). -/
structure ProductData where
  entries : String → Option ℚ
  category : Option String
  location : Option String

/-- The feature list `self.features` from `__init__`. -/
def features : List String :=
  ["Price", "Promotion", "Supplier_Cost", "Stock_Level", "Replenishment_Lead_Time",
   "Month", "Quarter", "DayOfWeek", "WeekOfYear", "Is_Weekend", "Year",
   "Profit_Margin", "Margin_Percentage", "Stock_Out_Risk", "Avg_Category_Price",
   "Price_Ratio_To_Avg", "Product_Category_Encoded", "Store_Location_Encoded"]

/-- The pre-calculated elasticity table `self.elasticities` from `__init__`. -/
def elasticities : String → Option ℚ := fun c =>
  if c = "Snacks" then some (-1.4)
  else if c = "Beverages" then some (-1.3)
  else if c = "Dairy" then some (-0.9)
  else if c = "Household" then some (-0.7)
  else if c = "Personal Care" then some (-0.6)
  else none

/-- Python's `table.get(category, -1.0)`: lookup with default `-1.0`. -/
def elasticitiesGet (tab : String → Option ℚ) (category : String) : ℚ :=
  (tab category).getD (-1)

/-- `prepare_features`: build the feature vector, substituting `0.0` for any
feature missing from the product dict. -/
def prepare_features (product_data : ProductData) : List ℚ :=
  features.map (fun f => (product_data.entries f).getD 0)

/-- `forecast_demand`: run the external estimator on the prepared features and
clamp the prediction to be non-negative (`max(0, prediction)`). -/
def forecast_demand (predict : List ℚ → Except PyErr ℚ)
    (product_data : ProductData) : Except PyErr ℚ :=
  match predict (prepare_features product_data) with
  | .error e => .error e
  | .ok prediction => .ok (max 0 prediction)

/-- The in-place dict mutation `product_data['Price'] = current_price`. -/
def dictSetPrice (product_data : ProductData) (v : ℚ) : ProductData :=
  { product_data with
    entries := fun k => if k = "Price" then some v else product_data.entries k }

/-- `np.linspace(a, b, n)`: `n` evenly spaced points from `a` to `b`
inclusive; point `i` is `a + i·(b−a)/(n−1)`. -/
def linspace (a b : ℚ) (n : ℕ) : List ℚ :=
  (List.range n).map (fun i : ℕ => a + (i : ℚ) * (b - a) / ((n : ℚ) - 1))

/-- One entry of the `results` list built by the loop in `optimize_price`. -/
structure SimPoint where
  price : ℚ
  demand : ℚ
  revenue : ℚ
  price_change_pct : ℚ
  deriving DecidableEq

/-- The body of one loop iteration of `optimize_price` that builds the
simulation record for candidate price `p`:
elasticity lookup, `price_change_pct = (p − cp)/cp`,
`demand_change_pct = elasticity · price_change_pct`,
`adjusted_demand = bd · (1 + demand_change_pct)`,
`revenue = p · adjusted_demand`.
Rational division by zero is total (gives 0); the Python division by
`current_price` has NumPy operands (the candidate comes from `np.linspace`)
and never raises either, so the embedding agrees with the source whenever
`current_price ≠ 0`. -/
def simPoint (tab : String → Option ℚ) (category : String)
    (current_price base_demand p : ℚ) : SimPoint :=
  let elasticity := elasticitiesGet tab category
  let price_change_pct := (p - current_price) / current_price
  let demand_change_pct := elasticity * price_change_pct
  let adjusted_demand := base_demand * (1 + demand_change_pct)
  { price := p, demand := adjusted_demand, revenue := p * adjusted_demand,
    price_change_pct := price_change_pct }

/-- One iteration of the candidate loop of `optimize_price`: append the
simulation record and update the best `(price, revenue)` pair exactly when
`test_revenue > best_revenue` (strict improvement). The accumulator is
`(results, best_price, best_revenue)`. -/
def loopStep (tab : String → Option ℚ) (category : String)
    (current_price base_demand : ℚ)
    (acc : List SimPoint × ℚ × ℚ) (p : ℚ) : List SimPoint × ℚ × ℚ :=
  let pt := simPoint tab category current_price base_demand p
  if pt.revenue > acc.2.2 then (acc.1 ++ [pt], p, pt.revenue)
  else (acc.1 ++ [pt], acc.2.1, acc.2.2)

/-- The candidate-price loop of `optimize_price`, started from
`best_price = current_price`, `best_revenue = base_revenue`. -/
def priceLoop (tab : String → Option ℚ) (category : String)
    (current_price base_demand : ℚ) (price_points : List ℚ) :
    List SimPoint × ℚ × ℚ :=
  price_points.foldl (loopStep tab category current_price base_demand)
    ([], current_price, current_price * base_demand)

/-- The result dict of `optimize_price`. -/
structure OptResult where
  current_price : ℚ
  optimal_price : ℚ
  current_revenue : ℚ
  optimal_revenue : ℚ
  revenue_increase_pct : ℚ
  price_change_pct : ℚ
  simulation_results : List SimPoint
  deriving DecidableEq

/-- `optimize_price`.  The first component of the result is the caller's
product dict after the call (the method mutates it in place by
`product_data['Price'] = current_price` before forecasting); the second is
the returned dict, or the exception the call raises.

On the final `revenue_increase_pct = (best_revenue - base_revenue) /
base_revenue * 100`: Python raises `ZeroDivisionError` exactly when the
divisor is a plain Python-number zero, which happens exactly when
`base_demand = 0` (then `max(0, prediction)` returned the int `0` and
`base_revenue` is a Python-number zero).  For `base_demand > 0` the divisor is
a NumPy scalar and NumPy division never raises, so no other input makes this
division raise. -/
def optimize_price (predict : List ℚ → Except PyErr ℚ)
    (tab : String → Option ℚ) (product_data : ProductData)
    (current_price : ℚ) (category : String)
    (min_price max_price : Option ℚ) : ProductData × Except PyErr OptResult :=
  let mn := min_price.getD (current_price * 0.7)
  let mx := max_price.getD (current_price * 1.3)
  let pd := dictSetPrice product_data current_price
  (pd,
    match forecast_demand predict pd with
    | .error e => .error e
    | .ok base_demand =>
      let base_revenue := current_price * base_demand
      let price_points := linspace mn mx 50
      let L := priceLoop tab category current_price base_demand price_points
      if base_demand = 0 then .error .zeroDivisionError
      else .ok {
        current_price := current_price
        optimal_price := L.2.1
        current_revenue := base_revenue
        optimal_revenue := L.2.2
        revenue_increase_pct := (L.2.2 - base_revenue) / base_revenue * 100
        price_change_pct := (L.2.1 - current_price) / current_price * 100
        simulation_results := L.1 })

/-- One row of the DataFrame returned by `generate_recommendations`. -/
structure RecommendationRecord where
  Product_Category : String
  Store_Location : String
  Current_Price : ℚ
  Recommended_Price : ℚ
  Price_Change_Pct : ℚ
  Expected_Revenue_Increase_Pct : ℚ
  Recommendation : String
  deriving DecidableEq

/-- The body of one iteration of `generate_recommendations` (everything
inside the `try`): read `product['Price']` and `product['Product_Category']`,
run `optimize_price`, read `product['Store_Location']`, and project the
result into a recommendation record.  A missing key raises `KeyError`. -/
def recommend_one (predict : List ℚ → Except PyErr ℚ)
    (tab : String → Option ℚ) (product : ProductData) :
    Except PyErr RecommendationRecord :=
  match product.entries "Price" with
  | none => .error (.keyError "Price")
  | some price =>
    match product.category with
    | none => .error (.keyError "Product_Category")
    | some cat =>
      match (optimize_price predict tab product price cat none none).2 with
      | .error e => .error e
      | .ok result =>
        match product.location with
        | none => .error (.keyError "Store_Location")
        | some loc =>
          .ok { Product_Category := cat
                Store_Location := loc
                Current_Price := result.current_price
                Recommended_Price := result.optimal_price
                Price_Change_Pct := result.price_change_pct
                Expected_Revenue_Increase_Pct := result.revenue_increase_pct
                Recommendation :=
                  if result.price_change_pct > 0 then "INCREASE" else "DECREASE" }

/-- `generate_recommendations`: loop over the products; a failure of any one
product is caught by the `except` clause and that product is skipped
(`continue`), preserving the order of the successful ones. -/
def generate_recommendations (predict : List ℚ → Except PyErr ℚ)
    (tab : String → Option ℚ) : List ProductData → List RecommendationRecord
  | [] => []
  | product :: rest =>
    match recommend_one predict tab product with
    | .ok r => r :: generate_recommendations predict tab rest
    | .error _ => generate_recommendations predict tab rest

/-! Helper lemmas about the candidate grid -/

theorem linspace_fifty (a b : ℚ) :
    linspace a b 50 = (List.range 50).map (fun i : ℕ => a + (i : ℚ) * (b - a) / 49) := by
  unfold linspace
  congr 1
  funext i
  norm_num

theorem linspace_length (a b : ℚ) (n : ℕ) : (linspace a b n).length = n := by
  rw [linspace, List.length_map, List.length_range]

theorem linspace_head (a b : ℚ) : (linspace a b 50).head? = some a := by
  rw [linspace_fifty, List.head?_map]
  have h : (List.range 50).head? = some 0 := rfl
  rw [h, Option.map_some']
  norm_num

theorem linspace_getLast (a b : ℚ) : (linspace a b 50).getLast? = some b := by
  rw [linspace_fifty, List.getLast?_map]
  have h : (List.range 50).getLast? = some 49 := by decide
  rw [h, Option.map_some']
  congr 1
  field_simp

theorem linspace_last_mem (a b : ℚ) : b ∈ linspace a b 50 := by
  rw [linspace_fifty, List.mem_map]
  refine ⟨49, by decide, ?_⟩
  field_simp

theorem linspace_mem_bounds {a b p : ℚ} (hab : a ≤ b) (hp : p ∈ linspace a b 50) :
    a ≤ p ∧ p ≤ b := by
  rw [linspace_fifty, List.mem_map] at hp
  obtain ⟨i, hi, rfl⟩ := hp
  rw [List.mem_range] at hi
  have hi49 : (i : ℚ) ≤ 49 := by exact_mod_cast Nat.lt_succ_iff.mp hi
  have hi0 : (0 : ℚ) ≤ (i : ℚ) := by positivity
  have hba : (0 : ℚ) ≤ b - a := by linarith
  constructor
  · have : (0 : ℚ) ≤ (i : ℚ) * (b - a) / 49 :=
      div_nonneg (mul_nonneg hi0 hba) (by norm_num)
    linarith
  · have key : (i : ℚ) * (b - a) / 49 ≤ b - a := by
      rw [div_le_iff₀ (by norm_num : (0:ℚ) < 49)]
      nlinarith
    linarith

theorem linspace_mem_ne {a b p : ℚ} (hp : p ∈ linspace a b 50) (c : ℚ)
    (h : ∀ i : ℕ, i < 50 → a + (i : ℚ) * (b - a) / 49 ≠ c) : p ≠ c := by
  rw [linspace_fifty, List.mem_map] at hp
  obtain ⟨i, hi, rfl⟩ := hp
  exact h i (List.mem_range.mp hi)

theorem linspace_pairwise_le {a b : ℚ} (hab : a ≤ b) :
    (linspace a b 50).Pairwise (· ≤ ·) := by
  rw [linspace_fifty, List.pairwise_map]
  refine (List.pairwise_lt_range 50).imp ?_
  intro i j hij
  have hij' : (i : ℚ) ≤ (j : ℚ) := by exact_mod_cast hij.le
  have : (i : ℚ) * (b - a) / 49 ≤ (j : ℚ) * (b - a) / 49 := by
    apply div_le_div_of_nonneg_right ?_ (by norm_num)
    nlinarith
  linarith

theorem linspace_pairwise_lt {a b : ℚ} (hab : a < b) :
    (linspace a b 50).Pairwise (· < ·) := by
  rw [linspace_fifty, List.pairwise_map]
  refine (List.pairwise_lt_range 50).imp ?_
  intro i j hij
  have hij' : (i : ℚ) < (j : ℚ) := by exact_mod_cast hij
  have : (i : ℚ) * (b - a) / 49 < (j : ℚ) * (b - a) / 49 := by
    apply div_lt_div_of_pos_right ?_ (by norm_num)
    nlinarith
  linarith

/-! Helper lemmas about the candidate loop -/

theorem foldl_loopStep_results (tab : String → Option ℚ) (cat : String)
    (cp bd : ℚ) (pts : List ℚ) (acc : List SimPoint × ℚ × ℚ) :
    (pts.foldl (loopStep tab cat cp bd) acc).1 =
      acc.1 ++ pts.map (simPoint tab cat cp bd) := by
  induction pts generalizing acc with
  | nil => simp
  | cons p rest ih =>
    rw [List.foldl_cons, List.map_cons, ih]
    by_cases h : (simPoint tab cat cp bd p).revenue > acc.2.2 <;>
      simp [loopStep, h]

theorem foldl_loopStep_best_mono (tab : String → Option ℚ) (cat : String)
    (cp bd : ℚ) (pts : List ℚ) (acc : List SimPoint × ℚ × ℚ) :
    acc.2.2 ≤ (pts.foldl (loopStep tab cat cp bd) acc).2.2 := by
  induction pts generalizing acc with
  | nil => simp
  | cons p rest ih =>
    rw [List.foldl_cons]
    refine le_trans ?_ (ih (loopStep tab cat cp bd acc p))
    by_cases h : (simPoint tab cat cp bd p).revenue > acc.2.2 <;>
      simp [loopStep, h]
    exact le_of_lt h

theorem foldl_loopStep_best_ge (tab : String → Option ℚ) (cat : String)
    (cp bd : ℚ) (pts : List ℚ) :
    ∀ (acc : List SimPoint × ℚ × ℚ) {p : ℚ}, p ∈ pts →
      (simPoint tab cat cp bd p).revenue ≤
        (pts.foldl (loopStep tab cat cp bd) acc).2.2 := by
  induction pts with
  | nil => intro acc p hp; cases hp
  | cons q rest ih =>
    intro acc p hp
    rw [List.foldl_cons]
    rcases List.mem_cons.mp hp with rfl | hmem
    · refine le_trans ?_ (foldl_loopStep_best_mono tab cat cp bd rest _)
      by_cases h : (simPoint tab cat cp bd p).revenue > acc.2.2 <;>
        simp [loopStep, h]
      exact le_of_not_lt h
    · exact ih _ hmem

theorem foldl_loopStep_best_cases (tab : String → Option ℚ) (cat : String)
    (cp bd : ℚ) (pts : List ℚ) (acc : List SimPoint × ℚ × ℚ) :
    (pts.foldl (loopStep tab cat cp bd) acc).2 = acc.2 ∨
      ∃ p ∈ pts, (pts.foldl (loopStep tab cat cp bd) acc).2 =
        (p, (simPoint tab cat cp bd p).revenue) := by
  induction pts generalizing acc with
  | nil => left; rfl
  | cons q rest ih =>
    rw [List.foldl_cons]
    rcases ih (loopStep tab cat cp bd acc q) with h | ⟨p, hp, h⟩
    · rw [h]
      by_cases hq : (simPoint tab cat cp bd q).revenue > acc.2.2
      · right
        exact ⟨q, List.mem_cons_self q rest, by simp [loopStep, hq]⟩
      · left
        simp [loopStep, hq]
    · right
      exact ⟨p, List.mem_cons_of_mem q hp, h⟩

theorem priceLoop_results (tab : String → Option ℚ) (cat : String)
    (cp bd : ℚ) (pts : List ℚ) :
    (priceLoop tab cat cp bd pts).1 = pts.map (simPoint tab cat cp bd) := by
  rw [priceLoop, foldl_loopStep_results]
  rfl

theorem priceLoop_best_ge_base (tab : String → Option ℚ) (cat : String)
    (cp bd : ℚ) (pts : List ℚ) :
    cp * bd ≤ (priceLoop tab cat cp bd pts).2.2 :=
  foldl_loopStep_best_mono tab cat cp bd pts ([], cp, cp * bd)

theorem priceLoop_best_ge_mem (tab : String → Option ℚ) (cat : String)
    (cp bd : ℚ) (pts : List ℚ) {p : ℚ} (hp : p ∈ pts) :
    (simPoint tab cat cp bd p).revenue ≤ (priceLoop tab cat cp bd pts).2.2 :=
  foldl_loopStep_best_ge tab cat cp bd pts ([], cp, cp * bd) hp

theorem priceLoop_best_cases (tab : String → Option ℚ) (cat : String)
    (cp bd : ℚ) (pts : List ℚ) :
    (priceLoop tab cat cp bd pts).2 = (cp, cp * bd) ∨
      ∃ p ∈ pts, (priceLoop tab cat cp bd pts).2 =
        (p, (simPoint tab cat cp bd p).revenue) :=
  foldl_loopStep_best_cases tab cat cp bd pts ([], cp, cp * bd)

/-! Plumbing lemmas for `optimize_price` and `forecast_demand` -/

theorem forecast_demand_ok_nonneg {predict : List ℚ → Except PyErr ℚ}
    {pd : ProductData} {bd : ℚ}
    (h : forecast_demand predict pd = .ok bd) : 0 ≤ bd := by
  unfold forecast_demand at h
  cases hp : predict (prepare_features pd) with
  | error e => rw [hp] at h; cases h
  | ok v =>
    rw [hp] at h
    cases h
    exact le_max_left 0 v

theorem optimize_price_ok (predict : List ℚ → Except PyErr ℚ)
    (tab : String → Option ℚ) (pd : ProductData) (cp : ℚ) (cat : String)
    (mnO mxO : Option ℚ) {bd : ℚ}
    (hf : forecast_demand predict (dictSetPrice pd cp) = .ok bd)
    (hbd : bd ≠ 0) :
    (optimize_price predict tab pd cp cat mnO mxO).2 = .ok
      { current_price := cp
        optimal_price := (priceLoop tab cat cp bd
          (linspace (mnO.getD (cp * 0.7)) (mxO.getD (cp * 1.3)) 50)).2.1
        current_revenue := cp * bd
        optimal_revenue := (priceLoop tab cat cp bd
          (linspace (mnO.getD (cp * 0.7)) (mxO.getD (cp * 1.3)) 50)).2.2
        revenue_increase_pct := ((priceLoop tab cat cp bd
          (linspace (mnO.getD (cp * 0.7)) (mxO.getD (cp * 1.3)) 50)).2.2 - cp * bd)
          / (cp * bd) * 100
        price_change_pct := ((priceLoop tab cat cp bd
          (linspace (mnO.getD (cp * 0.7)) (mxO.getD (cp * 1.3)) 50)).2.1 - cp)
          / cp * 100
        simulation_results := (priceLoop tab cat cp bd
          (linspace (mnO.getD (cp * 0.7)) (mxO.getD (cp * 1.3)) 50)).1 } := by
  simp only [optimize_price]
  rw [hf]
  simp [hbd]

theorem optimize_price_forecast_err (predict : List ℚ → Except PyErr ℚ)
    (tab : String → Option ℚ) (pd : ProductData) (cp : ℚ) (cat : String)
    (mnO mxO : Option ℚ) {e : PyErr}
    (hf : forecast_demand predict (dictSetPrice pd cp) = .error e) :
    (optimize_price predict tab pd cp cat mnO mxO).2 = .error e := by
  simp only [optimize_price]
  rw [hf]

theorem optimize_price_zero_demand (predict : List ℚ → Except PyErr ℚ)
    (tab : String → Option ℚ) (pd : ProductData) (cp : ℚ) (cat : String)
    (mnO mxO : Option ℚ)
    (hf : forecast_demand predict (dictSetPrice pd cp) = .ok 0) :
    (optimize_price predict tab pd cp cat mnO mxO).2 = .error .zeroDivisionError := by
  simp only [optimize_price]
  rw [hf]
  simp

theorem simPoint_tab_congr {tab tab' : String → Option ℚ} {cat : String}
    (h : elasticitiesGet tab cat = elasticitiesGet tab' cat) (cp bd : ℚ) :
    simPoint tab cat cp bd = simPoint tab' cat cp bd := by
  funext p
  unfold simPoint
  rw [h]

theorem priceLoop_tab_congr {tab tab' : String → Option ℚ} {cat : String}
    (h : elasticitiesGet tab cat = elasticitiesGet tab' cat) (cp bd : ℚ)
    (pts : List ℚ) :
    priceLoop tab cat cp bd pts = priceLoop tab' cat cp bd pts := by
  unfold priceLoop
  congr 1
  funext acc p
  unfold loopStep
  rw [simPoint_tab_congr h cp bd]

/-! Concrete test inputs -/

/-- A product dict with no entries, used as a concrete test input. -/
def pdEmpty : ProductData := ⟨fun _ => none, none, none⟩

/-- A product dict carrying one numeric entry, used as a concrete test
input for the frame condition. -/
def pdStock : ProductData :=
  ⟨fun k => if k = "Stock_Level" then some 7 else none, none, none⟩

/-! The claims -/

/-- C1 (counterexample): at current_price = 10 with an estimator returning 0
(so base_revenue = 10 × 0 = 0), `optimize_price` fails with the builtin
`ZeroDivisionError` coming from the unguarded `revenue_increase_pct`
division — not with the `InvalidBaseline` domain error the claim asserts
(no such error class exists in the source). -/
theorem C1_counterexample :
    (optimize_price (fun _ => Except.ok 0) elasticities pdEmpty 10 "Snacks"
        none none).2 = Except.error PyErr.zeroDivisionError ∧
      (Except.error PyErr.zeroDivisionError : Except PyErr OptResult) ≠
        Except.error PyErr.invalidBaseline := by
  constructor
  · exact optimize_price_zero_demand _ _ _ _ _ _ _ rfl
  · simp

/-- C1 (amended): whenever the raw demand estimate at the current price is
≤ 0 — so `base_demand = max(0, raw) = 0` and `base_revenue = 0` —
`optimize_price` raises Python's builtin `ZeroDivisionError` from the
unguarded `revenue_increase_pct` division; it does not raise any defined
`InvalidBaseline` domain error, and no such error exists in the code. -/
theorem C1_zero_baseline_zero_division (predict : List ℚ → Except PyErr ℚ)
    (tab : String → Option ℚ) (pd : ProductData) (cp : ℚ) (cat : String)
    (mnO mxO : Option ℚ) (d : ℚ)
    (h : predict (prepare_features (dictSetPrice pd cp)) = .ok d)
    (hd : d ≤ 0) :
    (optimize_price predict tab pd cp cat mnO mxO).2 =
      .error .zeroDivisionError := by
  apply optimize_price_zero_demand
  unfold forecast_demand
  rw [h]
  simp [max_eq_left hd]

/-- C1 witness: a concrete run of the amended theorem. -/
theorem C1_zero_baseline_zero_division_witness :
    (optimize_price (fun _ => Except.ok (-5)) elasticities pdEmpty 8 "Dairy"
        none none).2 = Except.error PyErr.zeroDivisionError :=
  C1_zero_baseline_zero_division _ elasticities pdEmpty 8 "Dairy" none none
    (-5) rfl (by decide)

/-- C3: with valid explicit bounds, a successful `optimize_price` call
returns current_revenue = current_price × base_demand and an
optimal_revenue that is at least that baseline, because the best pair is
initialized to the baseline and only strictly better candidates replace
it. -/
theorem C3_optimal_revenue_ge_baseline (predict : List ℚ → Except PyErr ℚ)
    (tab : String → Option ℚ) (pd : ProductData) (cp : ℚ) (cat : String)
    (mn mx : ℚ) (bd : ℚ)
    (hmn : 0 < mn) (hmnmx : mn ≤ mx)
    (hf : forecast_demand predict (dictSetPrice pd cp) = .ok bd)
    (hbd : bd ≠ 0) :
    ∃ r, (optimize_price predict tab pd cp cat (some mn) (some mx)).2 =
        .ok r ∧ r.current_revenue = cp * bd ∧ cp * bd ≤ r.optimal_revenue := by
  refine ⟨_, optimize_price_ok predict tab pd cp cat (some mn) (some mx) hf hbd,
    rfl, ?_⟩
  exact priceLoop_best_ge_base tab cat cp bd _

/-- C3 witness: a concrete run of the baseline-inclusion theorem. -/
theorem C3_witness :
    ∃ r, (optimize_price (fun _ => Except.ok 1000) elasticities pdEmpty 10
        "Snacks" (some 9) (some 11)).2 = Except.ok r ∧
      r.current_revenue = 10 * 1000 ∧ 10 * 1000 ≤ r.optimal_revenue :=
  C3_optimal_revenue_ge_baseline _ elasticities pdEmpty 10 "Snacks" 9 11 1000
    (by decide) (by decide) rfl (by decide)

/-- C8: `forecast_demand` is the external estimator's output clamped to be
non-negative: exactly 0 when the raw estimate is negative, the raw estimate
itself otherwise; a negative raw estimate is not an error. -/
theorem C8_forecast_demand_clamps (predict : List ℚ → Except PyErr ℚ)
    (pd : ProductData) (d : ℚ)
    (h : predict (prepare_features pd) = .ok d) :
    forecast_demand predict pd = .ok (max 0 d) ∧
      (d < 0 → forecast_demand predict pd = .ok 0) ∧
      (0 ≤ d → forecast_demand predict pd = .ok d) := by
  have hbase : forecast_demand predict pd = .ok (max 0 d) := by
    unfold forecast_demand
    rw [h]
  refine ⟨hbase, ?_, ?_⟩
  · intro hd
    rw [hbase, max_eq_left hd.le]
  · intro hd
    rw [hbase, max_eq_right hd]

/-- C8 witness: a concrete estimator returning −7 is clamped to 0. -/
theorem C8_forecast_demand_clamps_witness :
    forecast_demand (fun _ => Except.ok (-7)) pdEmpty = Except.ok (max 0 (-7)) ∧
      ((-7 : ℚ) < 0 →
        forecast_demand (fun _ => Except.ok (-7)) pdEmpty = Except.ok 0) ∧
      ((0 : ℚ) ≤ -7 →
        forecast_demand (fun _ => Except.ok (-7)) pdEmpty = Except.ok (-7)) :=
  C8_forecast_demand_clamps (fun _ => Except.ok (-7)) pdEmpty (-7) rfl

/-- C9: for a category that is not a key of the elasticity table, no error
is raised and the behaviour of `optimize_price` is exactly that of an
elasticity of −1.0: the `.get` lookup yields −1 and the whole call is equal
to the call made with a table binding every category to −1. -/
theorem C9_unknown_category_defaults (cat : String)
    (h : elasticities cat = none) :
    elasticitiesGet elasticities cat = -1 ∧
      ∀ (predict : List ℚ → Except PyErr ℚ) (pd : ProductData) (cp : ℚ)
        (mnO mxO : Option ℚ),
        optimize_price predict elasticities pd cp cat mnO mxO =
          optimize_price predict (fun _ => some (-1)) pd cp cat mnO mxO := by
  have hget : elasticitiesGet elasticities cat = -1 := by
    rw [elasticitiesGet, h]
    rfl
  refine ⟨hget, ?_⟩
  intro predict pd cp mnO mxO
  have hpl : ∀ bd pts, priceLoop elasticities cat cp bd pts =
      priceLoop (fun _ => some (-1)) cat cp bd pts := by
    intro bd pts
    exact priceLoop_tab_congr (by rw [hget]; rfl) cp bd pts
  simp only [optimize_price]
  cases hF : forecast_demand predict (dictSetPrice pd cp) with
  | error e => rfl
  | ok bd => simp [hpl]

/-- C9 witness: "Electronics" is not a key of the table; the default −1.0 is
used and the call coincides with the explicit −1.0-table call. -/
theorem C9_unknown_category_defaults_witness :
    elasticitiesGet elasticities "Electronics" = -1 ∧
      optimize_price (fun _ => Except.ok 5) elasticities pdEmpty 10
          "Electronics" none none =
        optimize_price (fun _ => Except.ok 5) (fun _ => some (-1)) pdEmpty 10
          "Electronics" none none :=
  ⟨(C9_unknown_category_defaults "Electronics" rfl).1,
   (C9_unknown_category_defaults "Electronics" rfl).2 _ _ _ _ _⟩

/-- C10: `optimize_price` mutates the caller's product dict in place: after
the call the dict's `'Price'` entry is the current price, every other entry
is unchanged, and the non-numeric keys are untouched. -/
theorem C10_product_data_mutation (predict : List ℚ → Except PyErr ℚ)
    (tab : String → Option ℚ) (pd : ProductData) (cp : ℚ) (cat : String)
    (mnO mxO : Option ℚ) :
    (optimize_price predict tab pd cp cat mnO mxO).1.entries "Price" =
        some cp ∧
      (∀ k : String, k ≠ "Price" →
        (optimize_price predict tab pd cp cat mnO mxO).1.entries k =
          pd.entries k) ∧
      (optimize_price predict tab pd cp cat mnO mxO).1.category =
        pd.category ∧
      (optimize_price predict tab pd cp cat mnO mxO).1.location =
        pd.location := by
  have h1 : (optimize_price predict tab pd cp cat mnO mxO).1 =
      dictSetPrice pd cp := rfl
  rw [h1]
  refine ⟨?_, ?_, rfl, rfl⟩
  · simp [dictSetPrice]
  · intro k hk
    simp [dictSetPrice, hk]

/-- C10 witness: a concrete call sets `'Price'` to 5 and leaves the
`'Stock_Level'` entry at 7. -/
theorem C10_product_data_mutation_witness :
    (optimize_price (fun _ => Except.ok 1) elasticities pdStock 5 "Dairy"
        none none).1.entries "Price" = some 5 ∧
      (optimize_price (fun _ => Except.ok 1) elasticities pdStock 5 "Dairy"
        none none).1.entries "Stock_Level" = some 7 := by
  refine ⟨(C10_product_data_mutation (fun _ => Except.ok 1) elasticities
    pdStock 5 "Dairy" none none).1, ?_⟩
  rw [(C10_product_data_mutation (fun _ => Except.ok 1) elasticities pdStock 5
    "Dairy" none none).2.1 "Stock_Level" (by decide)]
  rfl

/-- C5: a successful `optimize_price` call with valid bounds returns a
simulation trace of exactly 50 points whose prices start at min_price, end
at max_price, and ascend (strictly so whenever min_price < max_price). -/
theorem C5_grid_invariant (predict : List ℚ → Except PyErr ℚ)
    (tab : String → Option ℚ) (pd : ProductData) (cp : ℚ) (cat : String)
    (mn mx : ℚ) (bd : ℚ)
    (hmn : 0 < mn) (hmnmx : mn ≤ mx)
    (hf : forecast_demand predict (dictSetPrice pd cp) = .ok bd)
    (hbd : bd ≠ 0) :
    ∃ r, (optimize_price predict tab pd cp cat (some mn) (some mx)).2 =
        .ok r ∧
      r.simulation_results.length = 50 ∧
      (r.simulation_results.map SimPoint.price).head? = some mn ∧
      (r.simulation_results.map SimPoint.price).getLast? = some mx ∧
      (r.simulation_results.map SimPoint.price).Pairwise (· ≤ ·) ∧
      (mn < mx →
        (r.simulation_results.map SimPoint.price).Pairwise (· < ·)) := by
  have hprice : ∀ pts : List ℚ,
      (pts.map (simPoint tab cat cp bd)).map SimPoint.price = pts := by
    intro pts
    rw [List.map_map]
    have hc : SimPoint.price ∘ simPoint tab cat cp bd = id := by
      funext p
      rfl
    rw [hc, List.map_id]
  refine ⟨_, optimize_price_ok predict tab pd cp cat (some mn) (some mx) hf hbd,
    ?_, ?_, ?_, ?_, ?_⟩
  · show (priceLoop tab cat cp bd (linspace mn mx 50)).1.length = 50
    rw [priceLoop_results, List.length_map]
    exact linspace_length mn mx 50
  · show ((priceLoop tab cat cp bd (linspace mn mx 50)).1.map
      SimPoint.price).head? = some mn
    rw [priceLoop_results, hprice, linspace_head]
  · show ((priceLoop tab cat cp bd (linspace mn mx 50)).1.map
      SimPoint.price).getLast? = some mx
    rw [priceLoop_results, hprice, linspace_getLast]
  · show ((priceLoop tab cat cp bd (linspace mn mx 50)).1.map
      SimPoint.price).Pairwise (· ≤ ·)
    rw [priceLoop_results, hprice]
    exact linspace_pairwise_le hmnmx
  · intro hlt
    show ((priceLoop tab cat cp bd (linspace mn mx 50)).1.map
      SimPoint.price).Pairwise (· < ·)
    rw [priceLoop_results, hprice]
    exact linspace_pairwise_lt hlt

/-- C5 witness: a concrete run of the grid-invariant theorem. -/
theorem C5_grid_invariant_witness :
    ∃ r, (optimize_price (fun _ => Except.ok 1000) elasticities pdEmpty 1
        "Snacks" (some 1) (some 2)).2 = Except.ok r ∧
      r.simulation_results.length = 50 ∧
      (r.simulation_results.map SimPoint.price).head? = some 1 ∧
      (r.simulation_results.map SimPoint.price).getLast? = some 2 ∧
      (r.simulation_results.map SimPoint.price).Pairwise (· ≤ ·) ∧
      ((1 : ℚ) < 2 →
        (r.simulation_results.map SimPoint.price).Pairwise (· < ·)) :=
  C5_grid_invariant (fun _ => Except.ok 1000) elasticities pdEmpty 1 "Snacks"
    1 2 1000 (by decide) (by decide) rfl (by decide)

/-- The adjusted-demand factor `1 + elasticity · price_change_pct` is
affine in the candidate price, so non-negativity at both endpoints of the
search window gives non-negativity at every price in between. -/
theorem demand_factor_nonneg {e cp mn mx p : ℚ} (hcp : 0 < cp)
    (hmnp : mn ≤ p) (hpmx : p ≤ mx)
    (h1 : 0 ≤ 1 + e * ((mn - cp) / cp)) (h2 : 0 ≤ 1 + e * ((mx - cp) / cp)) :
    0 ≤ 1 + e * ((p - cp) / cp) := by
  rcases le_or_lt 0 e with he | he
  · have hm : (mn - cp) / cp ≤ (p - cp) / cp :=
      div_le_div_of_nonneg_right (by linarith) hcp.le
    have := mul_le_mul_of_nonneg_left hm he
    linarith
  · have hm : (p - cp) / cp ≤ (mx - cp) / cp :=
      div_le_div_of_nonneg_right (by linarith) hcp.le
    have := mul_le_mul_of_nonpos_left hm he.le
    linarith

/-- C2 (counterexample): with caller-supplied wide bounds (min 10, max 100,
current price 10, elasticity −1, base demand 1000), the last simulation
point has demand −8000 < 0: the trace does not consist of non-negative
demands for every call. -/
theorem C2_counterexample :
    (optimize_price (fun _ => Except.ok 1000) elasticities pdEmpty 10 "Toys"
          (some 10) (some 100)).2.map
        (fun r => (r.simulation_results.map SimPoint.demand).getLast?) =
      Except.ok (some (-8000)) ∧ (-8000 : ℚ) < 0 := by
  constructor
  · rw [optimize_price_ok (fun _ => Except.ok 1000) elasticities pdEmpty 10
      "Toys" (some 10) (some 100) rfl (by decide)]
    show Except.ok (((priceLoop elasticities "Toys" 10 1000
      (linspace 10 100 50)).1.map SimPoint.demand).getLast?) = _
    rw [priceLoop_results, List.map_map, List.getLast?_map, linspace_getLast,
      Option.map_some']
    show Except.ok (some ((1000 : ℚ) *
      (1 + elasticitiesGet elasticities "Toys" * ((100 - 10) / 10)))) = _
    rw [show elasticitiesGet elasticities "Toys" = (-1 : ℚ) from rfl]
    norm_num
  · decide

/-- C2 (amended): every simulation point satisfies
revenue = price × demand; and provided the demand factor
`1 + elasticity · price_change_pct` is non-negative at both search-window
endpoints (as is the case for the default ±30% window with every table
elasticity), every point also has non-negative demand and revenue. -/
theorem C2_simulation_points (predict : List ℚ → Except PyErr ℚ)
    (tab : String → Option ℚ) (pd : ProductData) (cp : ℚ) (cat : String)
    (mn mx : ℚ) (bd : ℚ)
    (hcp : 0 < cp) (hmn : 0 < mn) (hmnmx : mn ≤ mx)
    (h1 : 0 ≤ 1 + elasticitiesGet tab cat * ((mn - cp) / cp))
    (h2 : 0 ≤ 1 + elasticitiesGet tab cat * ((mx - cp) / cp))
    (hf : forecast_demand predict (dictSetPrice pd cp) = .ok bd)
    (hbd : bd ≠ 0) :
    ∃ r, (optimize_price predict tab pd cp cat (some mn) (some mx)).2 =
        .ok r ∧
      ∀ pt ∈ r.simulation_results,
        pt.revenue = pt.price * pt.demand ∧ 0 ≤ pt.demand ∧ 0 ≤ pt.revenue := by
  have hbd0 : 0 ≤ bd := forecast_demand_ok_nonneg hf
  refine ⟨_, optimize_price_ok predict tab pd cp cat (some mn) (some mx) hf hbd,
    ?_⟩
  show ∀ pt ∈ (priceLoop tab cat cp bd (linspace mn mx 50)).1, _
  rw [priceLoop_results]
  intro pt hpt
  rw [List.mem_map] at hpt
  obtain ⟨p, hp, rfl⟩ := hpt
  obtain ⟨hmnp, hpmx⟩ := linspace_mem_bounds hmnmx hp
  have hfac : 0 ≤ 1 + elasticitiesGet tab cat * ((p - cp) / cp) :=
    demand_factor_nonneg hcp hmnp hpmx h1 h2
  refine ⟨rfl, ?_, ?_⟩
  · show 0 ≤ bd * (1 + elasticitiesGet tab cat * ((p - cp) / cp))
    exact mul_nonneg hbd0 hfac
  · show 0 ≤ p * (bd * (1 + elasticitiesGet tab cat * ((p - cp) / cp)))
    have hp0 : 0 ≤ p := le_trans hmn.le hmnp
    exact mul_nonneg hp0 (mul_nonneg hbd0 hfac)

/-- C2 witness: a concrete run of the amended simulation-point theorem
(current price 10, window [9, 11], category Snacks with elasticity −1.4). -/
theorem C2_simulation_points_witness :
    ∃ r, (optimize_price (fun _ => Except.ok 1000) elasticities pdEmpty 10
        "Snacks" (some 9) (some 11)).2 = Except.ok r ∧
      ∀ pt ∈ r.simulation_results,
        pt.revenue = pt.price * pt.demand ∧ 0 ≤ pt.demand ∧ 0 ≤ pt.revenue :=
  C2_simulation_points (fun _ => Except.ok 1000) elasticities pdEmpty 10
    "Snacks" 9 11 1000 (by decide) (by decide) (by decide)
    (by rw [show elasticitiesGet elasticities "Snacks" = -1.4 from rfl]; norm_num)
    (by rw [show elasticitiesGet elasticities "Snacks" = -1.4 from rfl]; norm_num)
    rfl (by decide)

/-- C4: in the symmetric example (current price 10, window [9, 11], base
demand 1000, default elasticity −1 via an unknown category), both extreme
candidates tie at revenue 9900, strictly below base revenue 10000, and —
the best pair being initialized to the baseline and replaced only on strict
improvement — the returned optimal price is exactly the current price 10. -/
theorem C4_strict_improvement_tiebreak :
    ∃ r, (optimize_price (fun _ => Except.ok 1000) elasticities pdEmpty 10
        "Generic" (some 9) (some 11)).2 = Except.ok r ∧
      r.optimal_price = 10 ∧ r.optimal_revenue = 10000 ∧
      (r.simulation_results.map SimPoint.revenue).head? = some 9900 ∧
      (r.simulation_results.map SimPoint.revenue).getLast? = some 9900 := by
  have hrev : ∀ p ∈ linspace 9 11 50,
      (simPoint elasticities "Generic" 10 1000 p).revenue < 10 * 1000 := by
    intro p hp
    have hne : p ≠ 10 := by
      refine linspace_mem_ne hp 10 ?_
      intro i hi hEq
      have h2 : (2 : ℚ) * (i : ℚ) = 49 := by
        field_simp at hEq
        linarith
    -- a ℚ equation `2 i = 49` is impossible for a natural `i`
      have h3 : ((2 * i : ℕ) : ℚ) = ((49 : ℕ) : ℚ) := by push_cast; linarith
      have h4 : 2 * i = 49 := Nat.cast_injective h3
      omega
    show (10 : ℚ) * 1000 > _
    show 10 * 1000 >
      p * (1000 * (1 + elasticitiesGet elasticities "Generic" * ((p - 10) / 10)))
    rw [show elasticitiesGet elasticities "Generic" = (-1 : ℚ) from rfl]
    have hd : (0 : ℚ) < (p - 10) * (p - 10) :=
      mul_self_pos.mpr (sub_ne_zero.mpr hne)
    have hform : p * (1000 * (1 + (-1 : ℚ) * ((p - 10) / 10))) =
        2000 * p - 100 * p ^ 2 := by
      ring
    rw [hform]
    nlinarith
  have hpair : (priceLoop elasticities "Generic" 10 1000
      (linspace 9 11 50)).2 = (10, 10 * 1000) := by
    rcases priceLoop_best_cases elasticities "Generic" 10 1000
      (linspace 9 11 50) with h | ⟨p, hp, h⟩
    · exact h
    · exfalso
      have hge := priceLoop_best_ge_base elasticities "Generic" 10 1000
        (linspace 9 11 50)
      rw [h] at hge
      exact absurd hge (not_le.mpr (hrev p hp))
  refine ⟨_, optimize_price_ok (fun _ => Except.ok 1000) elasticities pdEmpty
    10 "Generic" (some 9) (some 11) rfl (by decide), ?_, ?_, ?_, ?_⟩
  · show (priceLoop elasticities "Generic" 10 1000 (linspace 9 11 50)).2.1 = 10
    rw [hpair]
  · show (priceLoop elasticities "Generic" 10 1000 (linspace 9 11 50)).2.2 =
      10000
    rw [hpair]
    norm_num
  · show ((priceLoop elasticities "Generic" 10 1000
      (linspace 9 11 50)).1.map SimPoint.revenue).head? = some 9900
    rw [priceLoop_results, List.map_map, List.head?_map, linspace_head,
      Option.map_some']
    show some ((9 : ℚ) *
      (1000 * (1 + elasticitiesGet elasticities "Generic" * ((9 - 10) / 10)))) = _
    rw [show elasticitiesGet elasticities "Generic" = (-1 : ℚ) from rfl]
    norm_num
  · show ((priceLoop elasticities "Generic" 10 1000
      (linspace 9 11 50)).1.map SimPoint.revenue).getLast? = some 9900
    rw [priceLoop_results, List.map_map, List.getLast?_map, linspace_getLast,
      Option.map_some']
    show some ((11 : ℚ) *
      (1000 * (1 + elasticitiesGet elasticities "Generic" * ((11 - 10) / 10)))) = _
    rw [show elasticitiesGet elasticities "Generic" = (-1 : ℚ) from rfl]
    norm_num

/-- A hypothetical elasticity table fixing elasticity 0 for one category,
as in the spec's zero-elasticity property. -/
def tabZero : String → Option ℚ := fun c =>
  if c = "Zero" then some 0 else none

/-- C6 (counterexample): with elasticity 0 and base demand 1000 > 0 but
max_price = 5 below current_price = 20, the baseline keeps the optimum:
the returned optimal price is 20, not max_price = 5. -/
theorem C6_counterexample :
    elasticitiesGet tabZero "Zero" = 0 ∧
      (∃ r, (optimize_price (fun _ => Except.ok 1000) tabZero pdEmpty 20
          "Zero" (some 1) (some 5)).2 = Except.ok r ∧ r.optimal_price = 20) ∧
      (20 : ℚ) ≠ 5 := by
  have hrev : ∀ p ∈ linspace 1 5 50,
      (simPoint tabZero "Zero" 20 1000 p).revenue < 20 * 1000 := by
    intro p hp
    obtain ⟨h1p, hp5⟩ := linspace_mem_bounds (by norm_num) hp
    show 20 * 1000 >
      p * (1000 * (1 + elasticitiesGet tabZero "Zero" * ((p - 20) / 20)))
    rw [show elasticitiesGet tabZero "Zero" = (0 : ℚ) from rfl]
    have hform : p * (1000 * (1 + (0 : ℚ) * ((p - 20) / 20))) = 1000 * p := by
      ring
    rw [hform]
    linarith
  have hpair : (priceLoop tabZero "Zero" 20 1000 (linspace 1 5 50)).2 =
      (20, 20 * 1000) := by
    rcases priceLoop_best_cases tabZero "Zero" 20 1000 (linspace 1 5 50)
      with h | ⟨p, hp, h⟩
    · exact h
    · exfalso
      have hge := priceLoop_best_ge_base tabZero "Zero" 20 1000
        (linspace 1 5 50)
      rw [h] at hge
      exact absurd hge (not_le.mpr (hrev p hp))
  refine ⟨rfl, ⟨_, optimize_price_ok (fun _ => Except.ok 1000) tabZero pdEmpty
    20 "Zero" (some 1) (some 5) rfl (by decide), ?_⟩, by decide⟩
  show (priceLoop tabZero "Zero" 20 1000 (linspace 1 5 50)).2.1 = 20
  rw [hpair]

/-- C6 (amended): if the elasticity used for the category is 0 and
base_demand > 0, every candidate's adjusted demand equals base_demand and
revenue is strictly increasing in candidate price; and provided
additionally current_price ≤ max_price (and sane bounds,
0 < current_price, min_price ≤ max_price), the returned optimal price is
exactly max_price. -/
theorem C6_zero_elasticity (predict : List ℚ → Except PyErr ℚ)
    (tab : String → Option ℚ) (pd : ProductData) (cp : ℚ) (cat : String)
    (mn mx : ℚ) (bd : ℚ)
    (he : elasticitiesGet tab cat = 0)
    (hcp : 0 < cp) (hcpmx : cp ≤ mx) (hmnmx : mn ≤ mx)
    (hf : forecast_demand predict (dictSetPrice pd cp) = .ok bd)
    (hbd : 0 < bd) :
    ∃ r, (optimize_price predict tab pd cp cat (some mn) (some mx)).2 =
        .ok r ∧
      (∀ pt ∈ r.simulation_results, pt.demand = bd) ∧
      (∀ pt ∈ r.simulation_results, ∀ pt' ∈ r.simulation_results,
        pt.price < pt'.price → pt.revenue < pt'.revenue) ∧
      r.optimal_price = mx := by
  have hrevq : ∀ q : ℚ, (simPoint tab cat cp bd q).revenue = q * bd := by
    intro q
    show q * (bd * (1 + elasticitiesGet tab cat * ((q - cp) / cp))) = q * bd
    rw [he]
    ring
  have hdemq : ∀ q : ℚ, (simPoint tab cat cp bd q).demand = bd := by
    intro q
    show bd * (1 + elasticitiesGet tab cat * ((q - cp) / cp)) = bd
    rw [he]
    ring
  refine ⟨_, optimize_price_ok predict tab pd cp cat (some mn) (some mx) hf
    hbd.ne', ?_, ?_, ?_⟩
  · show ∀ pt ∈ (priceLoop tab cat cp bd (linspace mn mx 50)).1, _
    rw [priceLoop_results]
    intro pt hpt
    rw [List.mem_map] at hpt
    obtain ⟨p, _, rfl⟩ := hpt
    exact hdemq p
  · show ∀ pt ∈ (priceLoop tab cat cp bd (linspace mn mx 50)).1,
      ∀ pt' ∈ (priceLoop tab cat cp bd (linspace mn mx 50)).1,
      pt.price < pt'.price → pt.revenue < pt'.revenue
    rw [priceLoop_results]
    intro pt hpt pt' hpt' hlt
    rw [List.mem_map] at hpt hpt'
    obtain ⟨p, _, rfl⟩ := hpt
    obtain ⟨p', _, rfl⟩ := hpt'
    rw [hrevq p, hrevq p']
    exact mul_lt_mul_of_pos_right hlt hbd
  · have hbest_ge : mx * bd ≤
        (priceLoop tab cat cp bd (linspace mn mx 50)).2.2 := by
      have h := priceLoop_best_ge_mem tab cat cp bd (linspace mn mx 50)
        (linspace_last_mem mn mx)
      rwa [hrevq] at h
    show (priceLoop tab cat cp bd (linspace mn mx 50)).2.1 = mx
    rcases priceLoop_best_cases tab cat cp bd (linspace mn mx 50)
      with h | ⟨p, hp, h⟩
    · rw [h] at hbest_ge ⊢
      have hmxcp : mx ≤ cp := le_of_mul_le_mul_right hbest_ge hbd
      exact le_antisymm hcpmx hmxcp
    · rw [h] at hbest_ge ⊢
      rw [hrevq] at hbest_ge
      have hple : p ≤ mx := (linspace_mem_bounds hmnmx hp).2
      have hge : mx ≤ p := le_of_mul_le_mul_right hbest_ge hbd
      exact le_antisymm hple hge

/-- C6 witness: a concrete run of the amended zero-elasticity theorem with
current price 2 inside the window [1, 5]; the optimum is max_price = 5. -/
theorem C6_zero_elasticity_witness :
    ∃ r, (optimize_price (fun _ => Except.ok 1000) tabZero pdEmpty 2 "Zero"
        (some 1) (some 5)).2 = Except.ok r ∧
      (∀ pt ∈ r.simulation_results, pt.demand = 1000) ∧
      (∀ pt ∈ r.simulation_results, ∀ pt' ∈ r.simulation_results,
        pt.price < pt'.price → pt.revenue < pt'.revenue) ∧
      r.optimal_price = 5 :=
  C6_zero_elasticity (fun _ => Except.ok 1000) tabZero pdEmpty 2 "Zero" 1 5
    1000 rfl (by decide) (by decide) (by decide) rfl (by decide)

/-- A concrete product dict for the batch-resilience test. -/
def mkProduct (price : ℚ) (cat loc : String) : ProductData :=
  ⟨fun k => if k = "Price" then some price else none, some cat, some loc⟩

/-- A concrete estimator that raises exactly when the price feature (the
first feature of the vector) is 3, and otherwise predicts demand 10. -/
def predictBatch : List ℚ → Except PyErr ℚ := fun v =>
  if v.head? = some 3 then .error .estimatorFailure else .ok 10

/-- The 5-product batch in which product #3 makes the estimator raise. -/
def batch5 : List ProductData :=
  [mkProduct 1 "P1" "L1", mkProduct 2 "P2" "L2", mkProduct 3 "P3" "L3",
   mkProduct 4 "P4" "L4", mkProduct 5 "P5" "L5"]

/-- C7: `generate_recommendations` has partial-failure semantics: it returns
exactly the successfully optimized products, in order, skipping each failing
product; in particular, on the 5-product batch where product #3 makes the
estimator raise, exactly 4 records are returned and product #3 is absent. -/
theorem C7_batch_resilience :
    (∀ (predict : List ℚ → Except PyErr ℚ) (tab : String → Option ℚ)
        (products : List ProductData),
        generate_recommendations predict tab products =
          products.filterMap
            (fun product => (recommend_one predict tab product).toOption)) ∧
      (generate_recommendations predictBatch elasticities batch5).length = 4 ∧
      (generate_recommendations predictBatch elasticities batch5).map
        RecommendationRecord.Product_Category = ["P1", "P2", "P4", "P5"] := by
  have hfm : ∀ (predict : List ℚ → Except PyErr ℚ) (tab : String → Option ℚ)
      (products : List ProductData),
      generate_recommendations predict tab products =
        products.filterMap
          (fun product => (recommend_one predict tab product).toOption) := by
    intro predict tab products
    induction products with
    | nil => rfl
    | cons product rest ih =>
      simp only [generate_recommendations, List.filterMap_cons]
      cases hrec : recommend_one predict tab product with
      | ok r => simp [Except.toOption, ih]
      | error e => simp [Except.toOption, ih]
  obtain ⟨r1, e1, c1⟩ : ∃ r, recommend_one predictBatch elasticities
      (mkProduct 1 "P1" "L1") = Except.ok r ∧ r.Product_Category = "P1" :=
    ⟨_, rfl, rfl⟩
  obtain ⟨r2, e2, c2⟩ : ∃ r, recommend_one predictBatch elasticities
      (mkProduct 2 "P2" "L2") = Except.ok r ∧ r.Product_Category = "P2" :=
    ⟨_, rfl, rfl⟩
  have e3 : recommend_one predictBatch elasticities (mkProduct 3 "P3" "L3") =
      Except.error PyErr.estimatorFailure := rfl
  obtain ⟨r4, e4, c4⟩ : ∃ r, recommend_one predictBatch elasticities
      (mkProduct 4 "P4" "L4") = Except.ok r ∧ r.Product_Category = "P4" :=
    ⟨_, rfl, rfl⟩
  obtain ⟨r5, e5, c5⟩ : ∃ r, recommend_one predictBatch elasticities
      (mkProduct 5 "P5" "L5") = Except.ok r ∧ r.Product_Category = "P5" :=
    ⟨_, rfl, rfl⟩
  have hlist : generate_recommendations predictBatch elasticities batch5 =
      [r1, r2, r4, r5] := by
    rw [hfm]
    simp only [batch5, List.filterMap_cons, List.filterMap_nil, e1, e2, e3,
      e4, e5, Except.toOption]
  refine ⟨hfm, ?_, ?_⟩
  · rw [hlist]
    rfl
  · rw [hlist]
    simp only [List.map_cons, List.map_nil, c1, c2, c4, c5]

end PricingOptimizer
